import Mathlib

/-!
Shallow embedding of the vehicle-route-planning domain model and matrix
preprocessing pipeline.

Sources embedded here:
* `src/src/domain/customer_vehicle.py` — `Customer` / `Vehicle` entities,
  the cascading arrival-time recompute (`update_arrival_time`), the derived
  projections (`departure_time`, `get_service_finished_delay_in_minutes`,
  `drivingTimeSecondsFromPreviousStandstill`, `drivingTimeSecondsToDepot`)
  and the `Vehicle.arrival_time` aggregate.
* `src/src/domain/location.py` — `Location` with its driving-time /
  driving-distance dictionaries (keys are coordinate tuples, written by
  `set_driving_time_matrix`, read by `driving_time_to`).
* `src/src/duration_distance_service.py` — `update_locations_with_durations`.
* `src/api/app.py` — the duration-matrix preprocessing pipeline
  (`modify_duration_matrix`, `create_matrix_according_to_vehicle_count`,
  `increase_durations_by_percentage`), the read-projection renormalization
  `update_vehicles_departure_and_arrival_time`, and the dynamic-insertion
  helper `update_location_matrix`.

Conventions: `datetime` values are integers (seconds since an arbitrary
epoch); `timedelta` values are integer seconds.  Python `None` becomes
`Option.none`; a raised exception becomes `Except.error`.
-/

namespace VRP

/-- A location, identified by its coordinate pair (longitude, latitude), as in
`location.py` where `__eq__` and `__hash__` use exactly the coordinate pair.
Coordinates are modelled as integers (the float values of the source are only
ever compared for equality in the code paths embedded here). -/
structure Loc where
  longitude : Int
  latitude : Int
deriving DecidableEq, Repr

/-- `timedelta.seconds` — the seconds component of a (nonnegative) Python
`timedelta`, i.e. the total seconds modulo one day. -/
def tdSeconds (d : Nat) : Nat := d % 86400

/-- A `Customer` (planning entity of `customer_vehicle.py`).  The shadow
variables `vehicle` and `previous_customer` are passed explicitly to the
methods that read them (a `Customer` and its `Vehicle` reference each other in
the source; the snapshot of the references a method reads is supplied as an
argument).  `arrival_time` is the cascading shadow variable. -/
structure Customer where
  id : Int
  location : Loc
  ready_time : Int
  due_time : Int
  /-- `service_duration`, a nonnegative `timedelta`, in whole seconds. -/
  service_duration : Nat
  demand : Int
  arrival_time : Option Int
deriving DecidableEq, Repr

/-- A `Vehicle` (planning entity of `customer_vehicle.py`).  `depotLoc` is
`vehicle.depot.location` (a `Depot` is an id plus a location; only the
location is ever read by the embedded methods). -/
structure Vehicle where
  capacity : Int
  departure_time : Int
  depotLoc : Loc
  customers : List Customer
deriving DecidableEq, Repr

/-- `Customer.departure_time()`: `None` when `arrival_time` is `None`, else
`arrival_time + service_duration` (the full `timedelta` is added here). -/
def Customer.departure_time (c : Customer) : Option Int :=
  match c.arrival_time with
  | none => none
  | some a => some (a + (c.service_duration : Int))

/-- `Customer.update_arrival_time`, as a function of the customer's current
`vehicle` and `previous_customer` shadow variables.  The Python guard
`vehicle is None or (previous is not None and previous.arrival_time is None)`
is rendered by the first and third match arms; in the remaining arm with a
previous customer, `previous.arrival_time` is `some a`, so
`previous.departure_time()` is `some (a + service_duration)`, and the source
adds `timedelta(seconds=previous.service_duration.seconds)` on top of it. -/
def update_arrival_time (travel : Loc → Loc → Int)
    (vehicle : Option Vehicle) (previous : Option Customer)
    (self : Customer) : Customer :=
  match vehicle with
  | none => { self with arrival_time := none }
  | some v =>
    match previous with
    | none =>
        { self with
            arrival_time := some (v.departure_time + travel v.depotLoc self.location) }
    | some p =>
      match p.arrival_time with
      | none => { self with arrival_time := none }
      | some a =>
          { self with
              arrival_time := some ((a + (p.service_duration : Int))
                + travel p.location self.location
                + (tdSeconds p.service_duration : Int)) }

/-- `Customer.get_service_finished_delay_in_minutes`: `0` when `arrival_time`
is `None`, else `-((departure_time() - due_time) // timedelta(minutes=-1))`.
Python `//` on `timedelta`s is floor division of their lengths, here in whole
seconds, so it is `Int.fdiv` by `-60`.  (The source wraps the integer result
in `float(...)`; the value is modelled as the integer.) -/
def get_service_finished_delay_in_minutes (c : Customer) : Int :=
  match c.arrival_time with
  | none => 0
  | some a =>
      -(Int.fdiv ((a + (c.service_duration : Int)) - c.due_time) (-60))

/-- `Vehicle.arrival_time` (computed field): the vehicle's own
`departure_time` when it has no customers, else
`last_customer.departureTime + travel(last_customer, depot)`.  When the last
customer's `arrival_time` is `None`, `departureTime` is `None` and Python
raises `TypeError` on `None + timedelta(...)`, modelled as `.error`. -/
def Vehicle.arrivalTime (travel : Loc → Loc → Int) (v : Vehicle) :
    Except String Int :=
  match v.customers.getLast? with
  | none => .ok v.departure_time
  | some last =>
    match last.departure_time with
    | none => .error "TypeError"
    | some d => .ok (d + travel last.location v.depotLoc)

/-- The message of the `ValueError` raised by the helper methods when their
shadow variables are uninitialized. -/
def shadow_variable_exception_message : String :=
  "This method must not be called when the shadow variables are not initialized yet."

/-- `Customer.driving_time_seconds_to_depot`: raises `ValueError` when
`vehicle` is `None`, else the travel time from the customer's location to the
vehicle's depot. -/
def driving_time_seconds_to_depot (travel : Loc → Loc → Int)
    (vehicle : Option Vehicle) (self : Customer) : Except String Int :=
  match vehicle with
  | none => .error shadow_variable_exception_message
  | some v => .ok (travel self.location v.depotLoc)

/-- `Customer.driving_time_seconds_from_previous_standstill_or_none`: raises
`ValueError` when `vehicle` is `None`; else the travel time from the depot
(no previous customer) or from the previous customer's location. -/
def driving_time_seconds_from_previous_standstill_or_none
    (travel : Loc → Loc → Int) (vehicle : Option Vehicle)
    (previous : Option Customer) (self : Customer) : Except String Int :=
  match vehicle with
  | none => .error shadow_variable_exception_message
  | some v =>
    match previous with
    | none => .ok (travel v.depotLoc self.location)
    | some p => .ok (travel p.location self.location)

/-- `Customer.drivingTimeSecondsFromPreviousStandstill` (computed field):
`None` when `vehicle` is `None`, else the value of the helper (whose
`ValueError`, were it raised, would propagate — hence the `Except`). -/
def drivingTimeSecondsFromPreviousStandstill (travel : Loc → Loc → Int)
    (vehicle : Option Vehicle) (previous : Option Customer)
    (self : Customer) : Except String (Option Int) :=
  match vehicle with
  | none => .ok none
  | some _ =>
      (driving_time_seconds_from_previous_standstill_or_none
        travel vehicle previous self).map some

/-- `Customer.drivingTimeSecondsToDepot` (computed field): `None` when
`vehicle` is `None`, else the value of `driving_time_seconds_to_depot`. -/
def drivingTimeSecondsToDepot (travel : Loc → Loc → Int)
    (vehicle : Option Vehicle) (self : Customer) :
    Except String (Option Int) :=
  match vehicle with
  | none => .ok none
  | some _ => (driving_time_seconds_to_depot travel vehicle self).map some

/-- One arrival-time recompute cascade along a vehicle's customer sequence,
in sequence order; each customer's `update_arrival_time` reads the
already-updated previous customer (`CascadingUpdateShadowVariable`
semantics). -/
def cascade (travel : Loc → Loc → Int) (v : Vehicle) :
    Option Customer → List Customer → List Customer
  | _, [] => []
  | prev, c :: cs =>
      let c' := update_arrival_time travel (some v) prev c
      c' :: cascade travel v (some c') cs

/-- A plan state, for the recompute pass: each vehicle with its customer
sequence, plus the customers currently unassigned (`vehicle is None`,
hence also no previous customer). -/
structure Plan where
  vehicles : List Vehicle
  unassigned : List Customer
deriving DecidableEq, Repr

/-- The full recompute pass over a plan: cascades every vehicle's sequence
from its first customer, and updates every unassigned customer (whose
`update_arrival_time` sets `arrival_time := None`). -/
def recompute_pass (travel : Loc → Loc → Int) (p : Plan) : Plan :=
  { vehicles := p.vehicles.map fun v =>
      { v with customers := cascade travel v none v.customers },
    unassigned := p.unassigned.map fun c =>
      update_arrival_time travel none none c }

/-! ## The location lookup dictionaries (`location.py`, `api/app.py`)

A `Location`'s `driving_time_seconds_map` / `driving_distance_meters_map` is a
Python `dict`.  `set_driving_time_matrix` writes entries keyed by the
coordinate TUPLE `(longitude, latitude)`; `update_location_matrix` in
`api/app.py` writes entries keyed by the `Location` OBJECT itself; and
`driving_time_to` / `driving_distance_to` read with the coordinate tuple as
key.  A tuple key and a `Location` key never compare equal in Python
(`Location.__eq__` requires the other operand to be a `Location`, and
`tuple.__eq__` a tuple), so the two kinds of key are distinct constructors
here. -/

/-- A key of a location's lookup `dict`: either a coordinate tuple
`(longitude, latitude)` or a `Location` object (itself identified by its
coordinate pair, per `Location.__eq__`/`__hash__`). -/
inductive MapKey where
  | tup : Int → Int → MapKey
  | locObj : Loc → MapKey
deriving DecidableEq, Repr

/-- A lookup dictionary, as an association list (insertion order; a Python
`dict` keeps the first occurrence's position and overwrites its value). -/
abbrev DrivingMap := List (MapKey × Int)

/-- `dict.__getitem__`: `none` models a raised `KeyError`. -/
def dictGet (m : DrivingMap) (k : MapKey) : Option Int :=
  match m with
  | [] => none
  | (k₀, v₀) :: rest => if k₀ = k then some v₀ else dictGet rest k

/-- `dict.__setitem__`: overwrite the value if the key is present, else
append the new entry. -/
def dictSet (m : DrivingMap) (k : MapKey) (v : Int) : DrivingMap :=
  match m with
  | [] => [(k, v)]
  | (k₀, v₀) :: rest =>
      if k₀ = k then (k₀, v) :: rest else (k₀, v₀) :: dictSet rest k v

/-- `Location.driving_time_to(other)`: reads the map with the coordinate
TUPLE `(other.longitude, other.latitude)` as the key.  `none` models the
`KeyError` raised when the key is absent.  (The source also `round`s the
stored value; values are integers here.) -/
def driving_time_to (m : DrivingMap) (other : Loc) : Option Int :=
  dictGet m (.tup other.longitude other.latitude)

/-- The state of the two lookup maps that `update_location_matrix`
(`api/app.py`) mutates: the driving-time and driving-distance maps of an
existing location and of the new visit's location. -/
structure MatrixPairState where
  locTime : DrivingMap
  locDist : DrivingMap
  newTime : DrivingMap
  newDist : DrivingMap

/-- `update_location_matrix(location, new_location)` from `api/app.py`: writes
the four placeholder entries.  Each write keys the entry by the `Location`
OBJECT (`.locObj`), exactly as the source subscripts the dicts with the
`Location` value, not with its coordinate tuple. -/
def update_location_matrix (location newLocation : Loc)
    (s : MatrixPairState) : MatrixPairState :=
  { locDist := dictSet s.locDist (.locObj newLocation) 21544,
    locTime := dictSet s.locTime (.locObj newLocation) 1653,
    newDist := dictSet s.newDist (.locObj location) 21543,
    newTime := dictSet s.newTime (.locObj location) 1652 }

/-! ## `DurationDistanceService.update_locations_with_durations`
(`duration_distance_service.py`)

For each location `i` it builds a fresh map over all locations `j`; the value
is `durations[i][j]` when both indices are in range, else `0` (the module's
docstring: "If a duration is not available, the method sets the value to 0").
`set_driving_time_matrix` then stores each entry under the coordinate tuple of
location `j`.  There is no dimension check and no error path. -/

/-- The duration value chosen for the pair `(i, j)`: `durations[i][j]` when
`i < len(durations)` and `j < len(durations[i])`, else `0`. -/
def durationValue (durations : List (List Int)) (i j : Nat) : Int :=
  if i < durations.length ∧ j < (durations.getD i []).length then
    (durations.getD i []).getD j 0
  else 0

/-- `update_locations_with_durations`: returns, for each location, the
driving-time map written into it (keyed by coordinate tuples, via
`set_driving_time_matrix`).  Total: every input produces maps; mismatched
dimensions are zero-filled, never rejected. -/
def update_locations_with_durations (locations : List Loc)
    (durations : List (List Int)) : List (Loc × DrivingMap) :=
  (List.range locations.length).map fun i =>
    (locations.getD i ⟨0, 0⟩,
      (List.range locations.length).map fun j =>
        (MapKey.tup (locations.getD j ⟨0, 0⟩).longitude
          (locations.getD j ⟨0, 0⟩).latitude,
         durationValue durations i j))

/-! ## The duration-matrix preprocessing pipeline (`api/app.py`)

`json_to_vehicle_route_plan` applies, in order: per-entry `round(value)`;
`modify_duration_matrix` (clamp nonzero entries below 60 to 60);
`create_matrix_according_to_vehicle_count` (depot duplication);
`increase_durations_by_percentage` (nonzero entries become
`round(i + i*0.8, 1)`).  Entries are rationals (Python floats hold exact
values for every number these claims touch; rounding is Python's
round-half-to-even). -/

/-- Python `round(q)`: round half to even (banker's rounding). -/
def pyRound (q : ℚ) : Int :=
  let f : Int := ⌊q⌋
  if q - f < 1/2 then f
  else if q - f > 1/2 then f + 1
  else if f % 2 = 0 then f else f + 1

/-- Python `round(q, 1)`: round to one decimal place, half to even. -/
def pyRound1 (q : ℚ) : ℚ := (pyRound (10 * q) : ℚ) / 10

/-- The first pipeline step of `json_to_vehicle_route_plan`:
`[[round(value) for value in row] for row in durations]`. -/
def roundDurations (m : List (List ℚ)) : List (List ℚ) :=
  m.map (List.map fun v => (pyRound v : ℚ))

/-- `modify_duration_matrix`: every entry that is `< 60` and `≠ 0` becomes
`60.0`. -/
def modify_duration_matrix (m : List (List ℚ)) : List (List ℚ) :=
  m.map (List.map fun v => if v < 60 ∧ v ≠ 0 then 60 else v)

/-- The column half of `create_matrix_according_to_vehicle_count`: the first
item of the row is inserted at index 0, `number_of_vehicles - 1` times (each
insert uses the initially captured `sublist[0]`).  Python raises `IndexError`
on an empty row; rows are assumed nonempty where this matters (`headD 0`
stands in for `sublist[0]`). -/
def dupRowHead (k : Nat) (row : List ℚ) : List ℚ :=
  List.replicate (k - 1) (row.headD 0) ++ row

/-- `create_matrix_according_to_vehicle_count(matrix, key, k)`: first every
row gets its own first entry duplicated `k - 1` times at the front; then the
(already column-extended) first row is inserted at the front `k - 1` times.
For `k = 0`, Python's `range(k - 1) = range(-1)` is empty, matching natural
subtraction `k - 1 = 0`. -/
def create_matrix_according_to_vehicle_count (k : Nat)
    (m : List (List ℚ)) : List (List ℚ) :=
  let m₁ := m.map (dupRowHead k)
  List.replicate (k - 1) (m₁.headD []) ++ m₁

/-- `increase_durations_by_percentage`: every nonzero entry `i` becomes
`round(i + i * 0.8, 1)`; zero entries are kept. -/
def increase_durations_by_percentage (m : List (List ℚ)) : List (List ℚ) :=
  m.map (List.map fun v => if v ≠ 0 then pyRound1 (v + v * (8 / 10)) else v)

/-- The full duration pipeline of `json_to_vehicle_route_plan`, in source
order: round, clamp, depot duplication for `k` vehicles, inflation. -/
def preprocessDurations (k : Nat) (m : List (List ℚ)) : List (List ℚ) :=
  increase_durations_by_percentage
    (create_matrix_according_to_vehicle_count k
      (modify_duration_matrix (roundDurations m)))

/-! ## The read projection's staggered-departure renormalization
(`update_vehicles_departure_and_arrival_time`, `api/app.py`)

The response's vehicles are processed in place for `i = 1 .. m-1`:
`time_diff = v[i].arrival_time - v[i].departureTime`;
`v[i].departureTime = v[i-1].arrival_time + 60s` (reading the value `v[i-1]`
already holds, i.e. the renormalized one for `i - 1 ≥ 1`);
`v[i].arrival_time = v[i].departureTime + time_diff`.
A vehicle is modelled by its `(departureTime, arrival_time)` pair in
seconds. -/

/-- The loop body for the vehicles after the first, carrying the previous
vehicle's (already renormalized) arrival time. -/
def renormalizeFrom (prevArrival : Int) :
    List (Int × Int) → List (Int × Int)
  | [] => []
  | (d, a) :: rest =>
      let d' := prevArrival + 60
      let a' := d' + (a - d)
      (d', a') :: renormalizeFrom a' rest

/-- `update_vehicles_departure_and_arrival_time`, on the list of
`(departureTime, arrival_time)` pairs: vehicle 1 (index 0) is untouched, the
loop starts at index 1. -/
def update_vehicles_departure_and_arrival_time :
    List (Int × Int) → List (Int × Int)
  | [] => []
  | v₀ :: rest => v₀ :: renormalizeFrom v₀.2 rest

/-! ## Helper lemmas -/

/-- Computation rule of `Int.fdiv` at a positive numerator and divisor `-60`. -/
theorem fdiv_ofNat_succ_neg_sixty (m : Nat) :
    Int.fdiv (Int.ofNat (m + 1)) (-60) = Int.negSucc (m / 60) := rfl

/-- Computation rule of `Int.fdiv` at a negative numerator and divisor `-60`. -/
theorem fdiv_negSucc_neg_sixty (m : Nat) :
    Int.fdiv (Int.negSucc m) (-60) = Int.ofNat ((m + 1) / 60) := rfl

/-- `-(d.fdiv (-60))` satisfies the defining inequalities of `⌈d / 60⌉`. -/
theorem neg_fdiv_neg_sixty_bounds (d : Int) :
    60 * ((-(d.fdiv (-60))) - 1) < d ∧ d ≤ 60 * (-(d.fdiv (-60))) := by
  match d with
  | .ofNat 0 => decide
  | .ofNat (m + 1) =>
      rw [fdiv_ofNat_succ_neg_sixty, Int.negSucc_eq, Int.ofNat_eq_natCast]
      omega
  | .negSucc m =>
      rw [fdiv_negSucc_neg_sixty, Int.negSucc_eq, Int.ofNat_eq_natCast]
      omega

/-- `-(d.fdiv (-60))` is the ceiling of `d / 60`. -/
theorem neg_fdiv_neg_sixty_eq_ceil (d : Int) :
    -(d.fdiv (-60)) = ⌈(d : ℚ) / 60⌉ := by
  obtain ⟨h₁, h₂⟩ := neg_fdiv_neg_sixty_bounds d
  have h₁q : ((60 * ((-(d.fdiv (-60))) - 1) : Int) : ℚ) < (d : ℚ) := by
    exact_mod_cast h₁
  have h₂q : (d : ℚ) ≤ ((60 * (-(d.fdiv (-60))) : Int) : ℚ) := by
    exact_mod_cast h₂
  push_cast at h₁q h₂q
  symm
  rw [Int.ceil_eq_iff]
  refine ⟨?_, ?_⟩
  · rw [lt_div_iff₀ (by norm_num : (0 : ℚ) < 60)]
    push_cast
    linarith
  · rw [div_le_iff₀ (by norm_num : (0 : ℚ) < 60)]
    push_cast
    linarith

/-! ## Claim C1 -/

/-- C1: the claim states that for a visit `V` whose previous visit `P` has a
defined arrival time, the recompute sets
`V.arrival_time = P.departure_time() + travel_time(P.location, V.location)`,
with `P`'s service duration counted exactly once.  This is FALSE on the code:
at the concrete input below (`P.arrival_time = 0`, `P.service_duration = 600`,
travel time `100`) the recompute produces `1300`, not
`P.departure_time() + 100 = 700` — the else-branch of `update_arrival_time`
adds `timedelta(seconds=previous.service_duration.seconds)` on top of
`previous.departure_time()`, counting the service duration twice. -/
theorem C1_counterexample :
    (update_arrival_time (fun _ _ => 100) (some ⟨10, 0, ⟨0, 0⟩, []⟩)
        (some ⟨1, ⟨0, 0⟩, 0, 10000, 600, 1, some 0⟩)
        ⟨2, ⟨1, 1⟩, 0, 10000, 600, 1, none⟩).arrival_time ≠
      (Customer.departure_time ⟨1, ⟨0, 0⟩, 0, 10000, 600, 1, some 0⟩).map
        (fun d => d + 100) := by decide

/-- C1 (amended): for a visit assigned to a vehicle whose previous visit `P`
has a defined arrival time, the recompute pass sets
`V.arrival_time = P.departure_time() + travel_time(P.location, V.location)
+ P.service_duration.seconds` — i.e. `P`'s service duration is counted twice:
once inside `departure_time()` and once more explicitly (the second time via
the `timedelta.seconds` component). -/
theorem C1_service_duration_double_counted (travel : Loc → Loc → Int)
    (v : Vehicle) (p self : Customer) (a : Int)
    (h : p.arrival_time = some a) :
    (update_arrival_time travel (some v) (some p) self).arrival_time =
      p.departure_time.map (fun d =>
        d + travel p.location self.location
          + (tdSeconds p.service_duration : Int)) := by
  simp [update_arrival_time, Customer.departure_time, h]

/-- C1 witness: the amended rule evaluated at the counterexample's input
gives `(0 + 600) + 100 + 600 = 1300`. -/
theorem C1_service_duration_double_counted_witness :
    (update_arrival_time (fun _ _ => 100) (some ⟨10, 0, ⟨0, 0⟩, []⟩)
        (some ⟨1, ⟨0, 0⟩, 0, 10000, 600, 1, some 0⟩)
        ⟨2, ⟨1, 1⟩, 0, 10000, 600, 1, none⟩).arrival_time = some 1300 :=
  (C1_service_duration_double_counted (fun _ _ => 100) ⟨10, 0, ⟨0, 0⟩, []⟩
    ⟨1, ⟨0, 0⟩, 0, 10000, 600, 1, some 0⟩
    ⟨2, ⟨1, 1⟩, 0, 10000, 600, 1, none⟩ 0 rfl).trans (by decide)

/-! ## Claim C2 -/

/-- C2: the claim states that the arrival-back-at-depot aggregate propagates
"undefined" rather than failing when the last visit's `arrival_time` is
undefined.  This is FALSE on the code: at the concrete vehicle below, whose
single customer has `arrival_time = None`, `Vehicle.arrival_time` evaluates
`None + timedelta(...)` and raises `TypeError` instead of returning an
undefined value. -/
theorem C2_counterexample :
    Vehicle.arrivalTime (fun _ _ => 100)
      ⟨10, 0, ⟨0, 0⟩, [⟨1, ⟨1, 1⟩, 0, 10000, 600, 1, none⟩]⟩ =
      .error "TypeError" := rfl

/-- C2 (amended): the aggregate equals the vehicle's own departure time when
it has no visits, and the last visit's `departure_time` plus the travel time
from that visit to the depot when the last visit's arrival time is defined;
but when the last visit's `arrival_time` is undefined the computation raises
a `TypeError` instead of propagating "undefined". -/
theorem C2_arrival_back_at_depot (travel : Loc → Loc → Int) (v : Vehicle) :
    (v.customers = [] → v.arrivalTime travel = .ok v.departure_time) ∧
    (∀ last, v.customers.getLast? = some last →
      (∀ a, last.arrival_time = some a →
        v.arrivalTime travel =
          .ok ((a + (last.service_duration : Int))
            + travel last.location v.depotLoc)) ∧
      (last.arrival_time = none →
        v.arrivalTime travel = .error "TypeError")) := by
  refine ⟨fun h => by simp [Vehicle.arrivalTime, h], fun last hlast => ⟨?_, ?_⟩⟩
  · intro a ha
    simp [Vehicle.arrivalTime, hlast, Customer.departure_time, ha]
  · intro ha
    simp [Vehicle.arrivalTime, hlast, Customer.departure_time, ha]

/-- C2 witness: a vehicle whose last visit arrived at `40` with service
duration `600` and travel time `100` back to the depot has
arrival-back-at-depot `740`. -/
theorem C2_arrival_back_at_depot_witness :
    Vehicle.arrivalTime (fun _ _ => 100)
      ⟨10, 0, ⟨0, 0⟩, [⟨1, ⟨1, 1⟩, 0, 10000, 600, 1, some 40⟩]⟩ =
      .ok 740 :=
  (((C2_arrival_back_at_depot (fun _ _ => 100)
      ⟨10, 0, ⟨0, 0⟩, [⟨1, ⟨1, 1⟩, 0, 10000, 600, 1, some 40⟩]⟩).2
    ⟨1, ⟨1, 1⟩, 0, 10000, 600, 1, some 40⟩ rfl).1 40 rfl).trans rfl

/-! ## Claim C3 -/

/-- C3: the claim states that the lateness projection returns
`max(0, ceil((departure_time − due_time) in minutes))` and is never negative.
This is FALSE on the code: there is no clamping at `0`.  At the concrete
customer below (arrival `280`, service duration `600`, due time `1000`),
`departure_time − due_time = −120` seconds and the projection returns `−2`. -/
theorem C3_counterexample :
    get_service_finished_delay_in_minutes
      ⟨3, ⟨0, 0⟩, 0, 1000, 600, 1, some 280⟩ < 0 := by decide

/-- C3 (amended): for a visit with a defined arrival time the lateness
projection returns `ceil((departure_time − due_time) in minutes)` WITHOUT
clamping at `0`: it equals `0` when the departure time is at or less than one
minute before the due time, but goes negative when the departure time
precedes the due time by a full minute or more. -/
theorem C3_delay_is_unclamped_ceil (c : Customer) (a : Int)
    (h : c.arrival_time = some a) :
    get_service_finished_delay_in_minutes c =
      ⌈(((a + (c.service_duration : Int)) - c.due_time : Int) : ℚ) / 60⌉ := by
  rw [get_service_finished_delay_in_minutes, h]
  exact neg_fdiv_neg_sixty_eq_ceil _

/-- C3 witness: the amended rule evaluated at the counterexample's customer:
`⌈−120 / 60⌉ = −2`. -/
theorem C3_delay_is_unclamped_ceil_witness :
    get_service_finished_delay_in_minutes
      ⟨3, ⟨0, 0⟩, 0, 1000, 600, 1, some 280⟩ = -2 :=
  (C3_delay_is_unclamped_ceil ⟨3, ⟨0, 0⟩, 0, 1000, 600, 1, some 280⟩ 280
    rfl).trans (by
      rw [show ((((280 + ((600 : Nat) : Int)) - 1000 : Int) : ℚ)) / 60 =
            ((-2 : Int) : ℚ) by norm_num, Int.ceil_intCast])

/-! ## Claim C4 -/

/-- C4: the claim states that a duration matrix with too few rows, or rows
shorter than the location list, is rejected with an error before entity
construction and never silently padded.  This is FALSE on the code: at the
concrete input below — two locations but a 1×1 duration matrix —
`update_locations_with_durations` raises nothing and builds complete lookup
maps in which every missing entry has been silently padded with `0`. -/
theorem C4_counterexample :
    update_locations_with_durations [⟨0, 0⟩, ⟨1, 1⟩] [[5]] =
      [(⟨0, 0⟩, [(.tup 0 0, 5), (.tup 1 1, 0)]),
       (⟨1, 1⟩, [(.tup 0 0, 0), (.tup 1 1, 0)])] := by decide

/-- C4 (amended): for every input — including matrices with too few rows or
rows shorter than the location list — the preprocessing path accepts the
input: every location receives a lookup map with one entry per location, and
every entry whose indices fall outside the provided matrix is silently
zero-filled (as the module's own docstring states); no error is ever
raised. -/
theorem C4_silent_zero_padding (locations : List Loc)
    (durations : List (List Int)) :
    (update_locations_with_durations locations durations).length =
      locations.length ∧
    (∀ i, i < locations.length →
      ((update_locations_with_durations locations durations).getD i
          (⟨0, 0⟩, [])).2.length = locations.length) ∧
    (∀ i j, i < locations.length → j < locations.length →
      (durations.length ≤ i ∨ (durations.getD i []).length ≤ j) →
      ((update_locations_with_durations locations durations).getD i
          (⟨0, 0⟩, [])).2.getD j (.tup 0 0, 0) =
        (MapKey.tup (locations.getD j ⟨0, 0⟩).longitude
          (locations.getD j ⟨0, 0⟩).latitude, 0)) := by
  have key : ∀ i, i < locations.length →
      (update_locations_with_durations locations durations).getD i
          (⟨0, 0⟩, []) =
        (locations.getD i ⟨0, 0⟩,
          (List.range locations.length).map fun j =>
            (MapKey.tup (locations.getD j ⟨0, 0⟩).longitude
              (locations.getD j ⟨0, 0⟩).latitude,
             durationValue durations i j)) := by
    intro i hi
    rw [update_locations_with_durations,
      List.getD_eq_getElem _ _ (by simpa using hi)]
    simp
  refine ⟨by simp [update_locations_with_durations], ?_, ?_⟩
  · intro i hi
    rw [key i hi]
    simp
  · intro i j hi hj hmiss
    rw [key i hi]
    have hval : durationValue durations i j = 0 := by
      rw [durationValue, if_neg]
      omega
    rw [List.getD_eq_getElem _ _ (by simpa using hj)]
    simp [hval]

/-- C4 witness: the amended statement applied to the counterexample's input:
two locations, a 1×1 matrix; the second location's row is fully zero-filled
at entry `(1, 1)`. -/
theorem C4_silent_zero_padding_witness :
    ((update_locations_with_durations [⟨0, 0⟩, ⟨1, 1⟩] [[5]]).getD 1
        (⟨0, 0⟩, [])).2.getD 1 (.tup 0 0, 0) = (MapKey.tup 1 1, 0) :=
  (C4_silent_zero_padding [⟨0, 0⟩, ⟨1, 1⟩] [[5]]).2.2 1 1 (by decide)
    (by decide) (by decide)

/-! ## Claim C5 -/

/-- C5: the dynamic-insertion placeholder entries written by
`update_location_matrix` are NOT retrievable through `driving_time_to`: the
code writes them keyed by the `Location` object, while `driving_time_to`
looks up the coordinate TUPLE `(longitude, latitude)`, and Python never
equates a tuple key with a `Location` key, so the lookup raises `KeyError`.
The claim is right about the intent (entries are written precisely so that
later lookups succeed, and every other writer — `set_driving_time_matrix` —
uses tuple keys, matching the reader); the mismatched key type is a slip in
the code.  Concretely: an existing location whose map already resolves
location `(1, 1)` is extended for the new location `(775946, 129716)`; the
old lookup still works, but both lookups involving the new location fail. -/
theorem C5_placeholder_not_retrievable :
    driving_time_to
        (update_location_matrix ⟨0, 0⟩ ⟨775946, 129716⟩
          ⟨[(.tup 1 1, 300)], [], [], []⟩).locTime ⟨1, 1⟩ = some 300 ∧
    driving_time_to
        (update_location_matrix ⟨0, 0⟩ ⟨775946, 129716⟩
          ⟨[(.tup 1 1, 300)], [], [], []⟩).locTime ⟨775946, 129716⟩ = none ∧
    driving_time_to
        (update_location_matrix ⟨0, 0⟩ ⟨775946, 129716⟩
          ⟨[(.tup 1 1, 300)], [], [], []⟩).newTime ⟨0, 0⟩ = none := by
  decide

/-! ## Claim C6 -/

/-- C6: the claim states that the full preprocessing pipeline maps the raw
duration matrix `[[0, 50], [50, 0]]` with one vehicle to `[[0, 60], [60, 0]]`.
This is FALSE on the code: the inflation step multiplies the clamped `60`
entries by `1.8`, so the pipeline produces `[[0, 108], [108, 0]]`. -/
theorem C6_counterexample :
    preprocessDurations 1 [[0, 50], [50, 0]] ≠ [[0, 60], [60, 0]] := by
  norm_num [preprocessDurations, increase_durations_by_percentage,
    create_matrix_according_to_vehicle_count, dupRowHead,
    modify_duration_matrix, roundDurations, pyRound1, pyRound]

/-- C6 (amended): the full preprocessing pipeline (round, clamp-to-60, depot
duplication — a no-op for one vehicle — then inflation by 80%) maps
`[[0, 50], [50, 0]]` with one vehicle to `[[0, 108], [108, 0]]`. -/
theorem C6_pipeline_example :
    preprocessDurations 1 [[0, 50], [50, 0]] = [[0, 108], [108, 0]] := by
  norm_num [preprocessDurations, increase_durations_by_percentage,
    create_matrix_according_to_vehicle_count, dupRowHead,
    modify_duration_matrix, roundDurations, pyRound1, pyRound]

/-! ## Claim C7 -/

/-- Specification of the renormalization loop `renormalizeFrom`: it preserves
the length and each vehicle's arrival-minus-departure span; the first
produced vehicle departs exactly 60 seconds after the accumulator, and each
later one exactly 60 seconds after its predecessor's produced arrival. -/
theorem renormalizeFrom_spec : ∀ (l : List (Int × Int)) (p : Int),
    (renormalizeFrom p l).length = l.length ∧
    (∀ i, i < l.length →
      ((renormalizeFrom p l).getD i (0, 0)).2 -
          ((renormalizeFrom p l).getD i (0, 0)).1 =
        (l.getD i (0, 0)).2 - (l.getD i (0, 0)).1) ∧
    (0 < l.length → ((renormalizeFrom p l).getD 0 (0, 0)).1 = p + 60) ∧
    (∀ i, i + 1 < l.length →
      ((renormalizeFrom p l).getD (i + 1) (0, 0)).1 =
        ((renormalizeFrom p l).getD i (0, 0)).2 + 60)
  | [], p =>
    ⟨rfl, fun i hi => absurd hi (by simp), by simp,
      fun i hi => absurd hi (by simp)⟩
  | (d, a) :: rest, p => by
    obtain ⟨hlen, hspan, hhead, hcons⟩ :=
      renormalizeFrom_spec rest (p + 60 + (a - d))
    refine ⟨by simp [renormalizeFrom, hlen], ?_, ?_, ?_⟩
    · intro i hi
      cases i with
      | zero => simp [renormalizeFrom]
      | succ j =>
          have hj : j < rest.length := by simpa using hi
          simpa [renormalizeFrom] using hspan j hj
    · intro _
      simp [renormalizeFrom]
    · intro i hi
      cases i with
      | zero =>
          have h0 : 0 < rest.length := by simpa using hi
          simpa [renormalizeFrom] using hhead h0
      | succ j =>
          have hj : j + 1 < rest.length := by simpa using hi
          simpa [renormalizeFrom] using hcons j hj

/-- C7: in the read projection's staggered-departure renormalization,
vehicle 1's pair is unchanged, the output has one entry per vehicle, and for
every `i > 0` the renormalized departure of vehicle `i` is at least 60
seconds after vehicle `i-1`'s renormalized arrival, while vehicle `i`'s
arrival-minus-departure span is exactly its span before renormalization. -/
theorem C7_staggered_departures (vs : List (Int × Int)) :
    (update_vehicles_departure_and_arrival_time vs).headD (0, 0) =
      vs.headD (0, 0) ∧
    (update_vehicles_departure_and_arrival_time vs).length = vs.length ∧
    ∀ i, 0 < i → i < vs.length →
      ((update_vehicles_departure_and_arrival_time vs).getD (i - 1)
            (0, 0)).2 + 60 ≤
        ((update_vehicles_departure_and_arrival_time vs).getD i (0, 0)).1 ∧
      ((update_vehicles_departure_and_arrival_time vs).getD i (0, 0)).2 -
          ((update_vehicles_departure_and_arrival_time vs).getD i (0, 0)).1 =
        (vs.getD i (0, 0)).2 - (vs.getD i (0, 0)).1 := by
  cases vs with
  | nil => exact ⟨rfl, rfl, fun i h0 hi => absurd hi (by simp)⟩
  | cons v rest =>
    obtain ⟨hlen, hspan, hhead, hcons⟩ := renormalizeFrom_spec rest v.2
    refine ⟨rfl,
      by simp [update_vehicles_departure_and_arrival_time, hlen], ?_⟩
    intro i h0 hi
    cases i with
    | zero => omega
    | succ j =>
        have hj : j < rest.length := by simpa using hi
        refine ⟨?_, ?_⟩
        · cases j with
          | zero =>
              have h := hhead (by simpa using hj)
              have hgoal : ((v :: renormalizeFrom v.2 rest).getD 0
                    (0, 0)).2 + 60 ≤
                  ((v :: renormalizeFrom v.2 rest).getD 1 (0, 0)).1 := by
                simp only [List.getD_cons_zero, List.getD_cons_succ]
                omega
              exact hgoal
          | succ k =>
              have h := hcons k (by omega)
              have hgoal : ((renormalizeFrom v.2 rest).getD k (0, 0)).2 +
                    60 ≤
                  ((renormalizeFrom v.2 rest).getD (k + 1) (0, 0)).1 := by
                omega
              exact hgoal
        · simp only [update_vehicles_departure_and_arrival_time,
            List.getD_cons_succ]
          exact hspan j hj

/-- C7 witness: two vehicles `(0, 100)` and `(200, 260)`: the second departs
at `100 + 60 = 160 ≥ 100 + 60` and keeps its span `60`. -/
theorem C7_staggered_departures_witness :
    ((update_vehicles_departure_and_arrival_time
          [(0, 100), (200, 260)]).getD 0 (0, 0)).2 + 60 ≤
      ((update_vehicles_departure_and_arrival_time
          [(0, 100), (200, 260)]).getD 1 (0, 0)).1 ∧
    ((update_vehicles_departure_and_arrival_time
          [(0, 100), (200, 260)]).getD 1 (0, 0)).2 -
        ((update_vehicles_departure_and_arrival_time
          [(0, 100), (200, 260)]).getD 1 (0, 0)).1 =
      (([(0, 100), (200, 260)] : List (Int × Int)).getD 1 (0, 0)).2 -
        (([(0, 100), (200, 260)] : List (Int × Int)).getD 1 (0, 0)).1 :=
  (C7_staggered_departures [(0, 100), (200, 260)]).2.2 1 (by decide)
    (by decide)

/-! ## Claim C8 -/

/-- Re-running `update_arrival_time` on its own output (same shadow-variable
snapshot) changes nothing: the written `arrival_time` depends only on the
vehicle, the previous customer, and the customer's structural fields. -/
theorem update_arrival_time_idem (t : Loc → Loc → Int)
    (vh : Option Vehicle) (prev : Option Customer) (c : Customer) :
    update_arrival_time t vh prev (update_arrival_time t vh prev c) =
      update_arrival_time t vh prev c := by
  cases vh with
  | none => simp [update_arrival_time]
  | some v =>
    cases prev with
    | none => simp [update_arrival_time]
    | some p =>
      cases hp : p.arrival_time with
      | none => simp [update_arrival_time, hp]
      | some a => simp [update_arrival_time, hp]

/-- The cascade reads only the vehicle's departure time and depot location,
so replacing the vehicle's customer list does not change it. -/
theorem cascade_customers_irrel (t : Loc → Loc → Int) (v : Vehicle)
    (X : List Customer) :
    ∀ (prev : Option Customer) (l : List Customer),
      cascade t { v with customers := X } prev l = cascade t v prev l
  | _, [] => rfl
  | prev, c :: cs => by
    simp only [cascade]
    have h : update_arrival_time t (some { v with customers := X }) prev c =
        update_arrival_time t (some v) prev c := rfl
    rw [h, cascade_customers_irrel t v X
      (some (update_arrival_time t (some v) prev c)) cs]

/-- Cascading a vehicle's sequence twice from the same starting point gives
the same sequence as cascading it once. -/
theorem cascade_idem (t : Loc → Loc → Int) (v : Vehicle) :
    ∀ (prev : Option Customer) (l : List Customer),
      cascade t v prev (cascade t v prev l) = cascade t v prev l
  | _, [] => rfl
  | prev, c :: cs => by
    simp only [cascade]
    rw [update_arrival_time_idem,
      cascade_idem t v (some (update_arrival_time t (some v) prev c)) cs]

/-- C8: running the arrival-time recompute pass twice in succession on any
plan state, with no structural mutation in between, yields the same arrival
times as running it once — for every vehicle's sequence and for every
unassigned customer. -/
theorem C8_recompute_pass_idempotent (t : Loc → Loc → Int) (p : Plan) :
    recompute_pass t (recompute_pass t p) = recompute_pass t p := by
  cases p with
  | mk vehicles unassigned =>
    simp only [recompute_pass, List.map_map]
    have hveh : List.map
        ((fun v => { v with customers := cascade t v none v.customers }) ∘
          (fun v => { v with customers := cascade t v none v.customers }))
        vehicles =
        List.map (fun v =>
          { v with customers := cascade t v none v.customers }) vehicles := by
      apply List.map_congr_left
      intro v _
      simp only [Function.comp_apply]
      rw [cascade_customers_irrel, cascade_idem]
    have hun : List.map
        ((fun c => update_arrival_time t none none c) ∘
          (fun c => update_arrival_time t none none c)) unassigned =
        List.map (fun c => update_arrival_time t none none c) unassigned := by
      apply List.map_congr_left
      intro c _
      simp only [Function.comp_apply]
      exact update_arrival_time_idem t none none c
    rw [hveh, hun]

/-! ## Claim C9 -/

/-- `getD` inside the replicated prefix of `replicate n x ++ l`. -/
theorem getD_replicate_append_lt {α : Type} (x d : α) (l : List α) :
    ∀ n r, r < n → (List.replicate n x ++ l).getD r d = x
  | 0, r, h => absurd h (by omega)
  | n + 1, 0, _ => by simp [List.replicate_succ]
  | n + 1, r + 1, h => by
      simp only [List.replicate_succ, List.cons_append, List.getD_cons_succ]
      exact getD_replicate_append_lt x d l n r (by omega)

/-- `getD` past the replicated prefix of `replicate n x ++ l`. -/
theorem getD_replicate_append_ge {α : Type} (x d : α) (l : List α)
    (i : Nat) :
    ∀ n, (List.replicate n x ++ l).getD (n + i) d = l.getD i d
  | 0 => by simp
  | n + 1 => by
      have hidx : n + 1 + i = (n + i) + 1 := by omega
      rw [hidx]
      simp only [List.replicate_succ, List.cons_append, List.getD_cons_succ]
      exact getD_replicate_append_ge x d l i n

/-- The head of a list with a default, as a `getD`. -/
theorem headD_eq_getD_zero {α : Type} (d : α) (l : List α) :
    l.headD d = l.getD 0 d := by cases l <;> simp

/-- Every entry of `dupRowHead k row` at a column below `k` equals the row's
original first entry. -/
theorem dupRowHead_getD_lt (k : Nat) (row : List ℚ) (c : Nat) (hc : c < k) :
    (dupRowHead k row).getD c 0 = row.getD 0 0 := by
  rcases Nat.lt_or_ge c (k - 1) with hlt | hge
  · rw [dupRowHead, getD_replicate_append_lt _ _ _ _ _ hlt]
    exact headD_eq_getD_zero 0 row
  · have hc1 : c = (k - 1) + 0 := by omega
    rw [dupRowHead, hc1, getD_replicate_append_ge]

/-- C9: after the depot-duplication step with `k ≥ 1` vehicles, the first `k`
rows of the matrix all equal the (column-duplicated) original depot row, whose
part beyond the duplicated prefix is exactly the original row 0; every entry
of the first `k` columns, at the row corresponding to original row `i`,
equals the original entry in column 0 of row `i`; and for `k = 0` the step is
a no-op. -/
theorem C9_depot_duplication (k : Nat) (m : List (List ℚ))
    (hm : m ≠ []) (hrows : ∀ row ∈ m, row ≠ []) :
    (create_matrix_according_to_vehicle_count 0 m = m) ∧
    (∀ r, r < k →
      (create_matrix_according_to_vehicle_count k m).getD r [] =
        dupRowHead k (m.getD 0 [])) ∧
    (∀ r, r < k →
      ((create_matrix_according_to_vehicle_count k m).getD r []).drop
          (k - 1) = m.getD 0 []) ∧
    (∀ i, i < m.length → ∀ c, c < k →
      ((create_matrix_according_to_vehicle_count k m).getD ((k - 1) + i)
          []).getD c 0 = (m.getD i []).getD 0 0) := by
  cases m with
  | nil => exact absurd rfl hm
  | cons row₀ mrest =>
    have key : ∀ r, r < k →
        (create_matrix_according_to_vehicle_count k (row₀ :: mrest)).getD r
          [] = dupRowHead k row₀ := by
      intro r hr
      simp only [create_matrix_according_to_vehicle_count, List.map_cons,
        List.headD_cons]
      rcases Nat.lt_or_ge r (k - 1) with hlt | hge
      · exact getD_replicate_append_lt _ _ _ _ _ hlt
      · have hr1 : r = (k - 1) + 0 := by omega
        rw [hr1, getD_replicate_append_ge]
        simp
    have h0 : dupRowHead 0 = fun row : List ℚ => row :=
      funext fun row => by simp [dupRowHead]
    refine ⟨by simp [create_matrix_according_to_vehicle_count, h0],
      ?_, ?_, ?_⟩
    · intro r hr
      rw [key r hr]
      simp
    · intro r hr
      rw [key r hr]
      rw [dupRowHead, List.drop_left' (by simp)]
      simp
    · intro i hi c hc
      simp only [create_matrix_according_to_vehicle_count, List.map_cons,
        List.headD_cons]
      rw [getD_replicate_append_ge]
      have hmap : (List.map (dupRowHead k) (row₀ :: mrest)).getD i [] =
          dupRowHead k ((row₀ :: mrest).getD i []) := by
        rw [List.getD_eq_getElem _ _ (by simpa using hi),
          List.getElem_map, List.getD_eq_getElem _ _ hi]
      rw [show (dupRowHead k row₀ :: List.map (dupRowHead k) mrest) =
            List.map (dupRowHead k) (row₀ :: mrest) from rfl, hmap,
        dupRowHead_getD_lt k _ c hc]

/-- C9 witness: two vehicles and the matrix `[[1,2],[3,4]]`: row 1 of the
result is the duplicated depot row `[1,1,2]`, and entry `(1 + 1, 0)` — the
first duplicated column at original row 1 — equals the original `3`. -/
theorem C9_depot_duplication_witness :
    (create_matrix_according_to_vehicle_count 2 [[1, 2], [3, 4]]).getD 1 [] =
      dupRowHead 2 (([[1, 2], [3, 4]] : List (List ℚ)).getD 0 []) ∧
    ((create_matrix_according_to_vehicle_count 2 [[1, 2], [3, 4]]).getD
        (1 + 1) []).getD 0 0 =
      (([[1, 2], [3, 4]] : List (List ℚ)).getD 1 []).getD 0 0 :=
  ⟨(C9_depot_duplication 2 [[1, 2], [3, 4]] (by simp) (by simp)).2.1 1
      (by omega),
   (C9_depot_duplication 2 [[1, 2], [3, 4]] (by simp) (by simp)).2.2.2 1
      (by simp) 0 (by omega)⟩

/-! ## Claim C10 -/

/-- C10: the public projections `drivingTimeSecondsFromPreviousStandstill`
and `drivingTimeSecondsToDepot` return `None` exactly when the customer is
unassigned (`vehicle is None`) and an integer travel time otherwise; the
uninitialized-shadow-variable `ValueError` of the underlying helpers is
unreachable through these projections (they never evaluate to an error). -/
theorem C10_projections_safe (travel : Loc → Loc → Int)
    (vehicle : Option Vehicle) (previous : Option Customer)
    (self : Customer) :
    (drivingTimeSecondsFromPreviousStandstill travel vehicle previous self =
        .ok none ↔ vehicle = none) ∧
    (drivingTimeSecondsToDepot travel vehicle self = .ok none ↔
      vehicle = none) ∧
    (vehicle ≠ none →
      (∃ n, drivingTimeSecondsFromPreviousStandstill travel vehicle previous
          self = .ok (some n)) ∧
      (∃ n, drivingTimeSecondsToDepot travel vehicle self = .ok (some n))) ∧
    (∀ e, drivingTimeSecondsFromPreviousStandstill travel vehicle previous
        self ≠ .error e) ∧
    (∀ e, drivingTimeSecondsToDepot travel vehicle self ≠ .error e) := by
  cases vehicle with
  | none =>
      simp [drivingTimeSecondsFromPreviousStandstill,
        drivingTimeSecondsToDepot]
  | some v =>
      cases previous with
      | none =>
          simp [drivingTimeSecondsFromPreviousStandstill,
            drivingTimeSecondsToDepot,
            driving_time_seconds_from_previous_standstill_or_none,
            driving_time_seconds_to_depot, Except.map]
      | some p =>
          simp [drivingTimeSecondsFromPreviousStandstill,
            drivingTimeSecondsToDepot,
            driving_time_seconds_from_previous_standstill_or_none,
            driving_time_seconds_to_depot, Except.map]

/-- C10 witness: an assigned customer with no previous customer gets defined
integer travel times from both projections. -/
theorem C10_projections_safe_witness :
    (∃ n, drivingTimeSecondsFromPreviousStandstill (fun _ _ => 100)
        (some ⟨10, 0, ⟨0, 0⟩, []⟩) none
        ⟨2, ⟨1, 1⟩, 0, 10000, 600, 1, none⟩ = .ok (some n)) ∧
    (∃ n, drivingTimeSecondsToDepot (fun _ _ => 100)
        (some ⟨10, 0, ⟨0, 0⟩, []⟩)
        ⟨2, ⟨1, 1⟩, 0, 10000, 600, 1, none⟩ = .ok (some n)) :=
  (C10_projections_safe (fun _ _ => 100) (some ⟨10, 0, ⟨0, 0⟩, []⟩) none
    ⟨2, ⟨1, 1⟩, 0, 10000, 600, 1, none⟩).2.2.1 (by simp)

end VRP
